import Mathlib

/-!
# Verification of the OpenToolBar desktop-integration core

Shallow embedding of `src-tauri/src/SystemTray/emulator.rs`,
`src-tauri/src/SystemTray/mod.rs` and `src-tauri/src/MediaPlayer/mod.rs`,
together with proofs of the behavioural claims about them.

Conventions used in the embedding:
* The Rust `HashSet<String>` fields of the tray watcher are modelled as
  `List String` with membership-checked insertion (`HashSet::insert` returns
  `true` exactly when the element was new, which the model mirrors).
* A fallible D-Bus signal-context creation (`SignalContext::new`, which the
  code reaches through `make_signal`) is modelled by a boolean parameter
  `ctxOk`: `true` means the creation succeeds, `false` means it fails and the
  surrounding `?` / `map_err` propagates an error.
* Signal emission is fire-and-forget in the code (`let _ = ...`); the model
  records the emitted signals in a list.
-/

/-! ## Tray watcher registry (`SystemTray/emulator.rs`) -/

/-- The signals the `Watcher` interface can broadcast
(`StatusNotifierItemRegistered`, `StatusNotifierItemUnregistered`,
`StatusNotifierHostRegistered` in `emulator.rs`). -/
inductive Signal where
  | itemRegistered (service : String)
  | itemUnregistered (service : String)
  | hostRegistered
deriving DecidableEq, Repr

/-- The mutable state of the `Watcher` struct: the `items` and `hosts`
`HashSet<String>` fields, modelled as lists with set semantics. -/
structure WatcherState where
  items : List String
  hosts : List String
deriving DecidableEq, Repr

/-- Result of one bus-method call: the registry state after the call, the
signals broadcast during it, and whether the call returned `Ok(())`
(`ok = true`) or a `zbus::fdo::Error` (`ok = false`). -/
structure CallResult where
  state : WatcherState
  signals : List Signal
  ok : Bool
deriving DecidableEq, Repr

/-- `Watcher::RegisterStatusNotifierItem` (emulator.rs lines 34–43):
insert `service` into `items`; if it was new, create a signal context
(failure of which returns an error *after* the insertion already happened)
and emit `StatusNotifierItemRegistered(service)`. -/
def RegisterStatusNotifierItem (ctxOk : Bool) (st : WatcherState)
    (service : String) : CallResult :=
  if service ∈ st.items then
    { state := st, signals := [], ok := true }
  else
    let st1 : WatcherState := { st with items := service :: st.items }
    if ctxOk then
      { state := st1, signals := [Signal.itemRegistered service], ok := true }
    else
      { state := st1, signals := [], ok := false }

/-- `Watcher::RegisterStatusNotifierHost` (emulator.rs lines 45–54):
insert `service` into `hosts`; if it was new, create a signal context and
emit `StatusNotifierHostRegistered` (no payload). -/
def RegisterStatusNotifierHost (ctxOk : Bool) (st : WatcherState)
    (service : String) : CallResult :=
  if service ∈ st.hosts then
    { state := st, signals := [], ok := true }
  else
    let st1 : WatcherState := { st with hosts := service :: st.hosts }
    if ctxOk then
      { state := st1, signals := [Signal.hostRegistered], ok := true }
    else
      { state := st1, signals := [], ok := false }

/-- `Watcher::RegisteredStatusNotifierItems` property (emulator.rs lines
56–60): a snapshot copy of the `items` set. -/
def RegisteredStatusNotifierItems (st : WatcherState) : List String :=
  st.items

/-- `Watcher::IsStatusNotifierHostRegistered` property (emulator.rs lines
62–66): `!hosts.is_empty()`. -/
def IsStatusNotifierHostRegistered (st : WatcherState) : Bool :=
  !st.hosts.isEmpty

/-- One `NameOwnerChanged` bus notification as consumed by the
ownership-loss observer: the name, and whether an old/new owner is present. -/
structure NameOwnerChanged where
  name : String
  oldOwnerPresent : Bool
  newOwnerPresent : Bool
deriving DecidableEq, Repr

/-- The body of the `while let Some(signal) = stream.next()` loop in
`SystemTrayEmulator::start` (emulator.rs lines 133–151): if the name lost
its owner and gained none, take the write lock, create a signal context
(failure, via `?`, returns the error — terminating the loop — before any
removal), then remove the name from `items` and, if something was removed,
emit `StatusNotifierItemUnregistered(name)`.  The final `Bool` is `true`
when the loop continues normally and `false` on the error return. -/
def processOwnerChanged (ctxOk : Bool) (st : WatcherState)
    (ev : NameOwnerChanged) : WatcherState × List Signal × Bool :=
  if ev.oldOwnerPresent && !ev.newOwnerPresent then
    if ctxOk then
      if ev.name ∈ st.items then
        ({ st with items := st.items.erase ev.name },
          [Signal.itemUnregistered ev.name], true)
      else
        (st, [], true)
    else
      (st, [], false)
  else
    (st, [], true)

/-- One externally-triggered operation on the shared registry: a remote
`RegisterStatusNotifierItem` or `RegisterStatusNotifierHost` call, or one
`NameOwnerChanged` notification handled by the observer loop. -/
inductive Op where
  | regItem (ctxOk : Bool) (service : String)
  | regHost (ctxOk : Bool) (service : String)
  | ownerChanged (ctxOk : Bool) (ev : NameOwnerChanged)
deriving DecidableEq, Repr

/-- The registry state after a single operation. -/
def stepOp (st : WatcherState) : Op → WatcherState
  | .regItem c s => (RegisterStatusNotifierItem c st s).state
  | .regHost c s => (RegisterStatusNotifierHost c st s).state
  | .ownerChanged c ev => (processOwnerChanged c st ev).1

/-- The registry state after a sequence of operations. -/
def runOps (st : WatcherState) : List Op → WatcherState
  | [] => st
  | op :: ops => runOps (stepOp st op) ops

/-! ## Tray presence detector (`SystemTray/mod.rs`) -/

/-- `TouriSystemTray::start` (mod.rs lines 30–58): query
`name_has_owner` for `org.freedesktop.StatusNotifierWatcher` and
`org.kde.StatusNotifierWatcher` (a failed query is collapsed to `false` by
`unwrap_or_default`), and activate the emulator iff neither reports an
owner.  Returns `true` iff `SystemTrayEmulator::new()` is invoked. -/
def shouldActivateEmulator (freedesktopRes kdeRes : Option Bool) : Bool :=
  let notifier_exist := freedesktopRes.getD false
  let kde_notifier_exist := kdeRes.getD false
  !notifier_exist && !kde_notifier_exist

/-! ## Media metadata watcher (`MediaPlayer/mod.rs`) -/

/-- A `zvariant::Value` as far as `listen_events` inspects one: a string, a
string-keyed dictionary, an array, or any other variant kind (collapsed to
`other`, since the code only pattern-matches on `Str`, `Dict` and `Array`). -/
inductive DValue where
  | str (s : String)
  | dict (entries : List (String × DValue))
  | array (elems : List DValue)
  | other

/-- `zvariant::Value`'s `Display` rendering as used by
`body_props.get("PlaybackStatus") ... v.to_string()`: a string value is
rendered wrapped in double quotes.  The renderings of the remaining variant
kinds are abstracted to fixed placeholder text — the code only ever tests
the rendering for emptiness and strips double quotes from it, and every
`Display` rendering of a `zvariant::Value` is non-empty. -/
def DValue.display : DValue → String
  | .str s => "\"" ++ s ++ "\""
  | .dict _ => "<dict>"
  | .array _ => "<array>"
  | .other => "<other>"

/-- The `MediaStruct` of `MediaPlayer/mod.rs` (lines 17–23). -/
structure MediaStruct where
  title : String
  artist : List String
  album : String
  status : String
deriving DecidableEq, Repr

/-- One message from the `MessageStream` as far as `listen_events` inspects
it: the header member (`None` is collapsed to `""` by the code), and the
body decoded as `(String, HashMap<String, Value>, Vec<String>)` —
`body = none` models a body that fails to decode into that shape.  The
`HashMap` is modelled as an association list (lookup by key). -/
structure BusMessage where
  member : Option String
  body : Option (String × List (String × DValue) × List String)

/-- Rust's `str::starts_with` on string slices, modelled on the character
list. -/
def strStartsWith (s p : String) : Bool :=
  p.data.isPrefixOf s.data

/-- `.replace("\"", "")` on the rendered playback status: replacing every
occurrence of the one-character pattern `"` by the empty string removes
exactly the double-quote characters. -/
def stripQuotes (s : String) : String :=
  ⟨s.data.filter (fun c => c ≠ '"')⟩

/-- The `xesam:title` extraction (mod.rs lines 145–148): the string value if
the key maps to a string, the empty string otherwise. -/
def extractTitle (d : List (String × DValue)) : String :=
  match d.lookup "xesam:title" with
  | some (DValue.str v) => v
  | _ => ""

/-- The `xesam:album` extraction (mod.rs lines 150–153). -/
def extractAlbum (d : List (String × DValue)) : String :=
  match d.lookup "xesam:album" with
  | some (DValue.str v) => v
  | _ => ""

/-- The `xesam:artist` extraction (mod.rs lines 155–161): if the key maps to
an array, keep the elements that downcast to strings (skipping the rest);
otherwise the empty list. -/
def extractArtists (d : List (String × DValue)) : List String :=
  match d.lookup "xesam:artist" with
  | some (DValue.array arr) =>
      arr.filterMap (fun v => match v with
        | DValue.str s => some s
        | _ => none)
  | _ => []

/-- One iteration of the `while let Some(event_message) = stream.next()`
loop in `listen_events` (mod.rs lines 100–173) on an `Ok` message:
given the snapshot `st` and whether the bounded debounce channel is
currently full (`try_send` fails exactly then), return the snapshot after
the iteration and the list of snapshots successfully pushed into the
channel (empty or a singleton). -/
def processMessage (channelFull : Bool) (st : MediaStruct)
    (msg : BusMessage) : MediaStruct × List MediaStruct :=
  let member_as_str := msg.member.getD ""
  if member_as_str ≠ "PropertiesChanged" then (st, [])
  else
    match msg.body with
    | none => (st, [])
    | some (body_interface, body_props, _) =>
      if !(strStartsWith body_interface "org.mpris.MediaPlayer2.Player") then
        (st, [])
      else
        let playing_status :=
          match body_props.lookup "PlaybackStatus" with
          | some v => v.display
          | none => ""
        let metadata :=
          match body_props.lookup "Metadata" with
          | some (DValue.dict d) => some d
          | _ => none
        if !playing_status.isEmpty then
          let st1 := { st with status := stripQuotes playing_status }
          (st1, if channelFull then [] else [st1])
        else
          match metadata with
          | some d =>
            let st1 := { st with
              artist := extractArtists d
              album := extractAlbum d
              title := extractTitle d }
            (st1, if channelFull then [] else [st1])
          | none => (st, [])

/-! ## Debounced emitter

The debounce stage (`create_emit_to_frontend`, mod.rs lines 62–84) wraps
the receiver in `Debounced::new(receiver, Duration::from_millis(100))`,
whose implementation lives in the external `debounced` crate and is not
part of this repository's sources. -/

/-- Modelled from the spec: the trailing-edge debounce of §4.2 — the
`Debounced` stream used by `create_emit_to_frontend`, whose source is the
external `debounced` crate and is absent from this repository.  Input is a
time-stamped update stream (time in milliseconds, strictly increasing);
an update is emitted iff no further update arrives within the quiet-period
window `w` after it (the spec leaves the exact boundary unstated; arrival
strictly after `w` has elapsed lets the pending value fire). -/
def debounce {α : Type} (w : Nat) : List (Nat × α) → List α
  | [] => []
  | [(_, v)] => [v]
  | (t1, v1) :: (t2, v2) :: rest =>
      if w < t2 - t1 then
        v1 :: debounce w ((t2, v2) :: rest)
      else
        debounce w ((t2, v2) :: rest)

/-- A burst: every update arrives within the quiet-period window of its
predecessor. -/
def withinBurst {α : Type} (w : Nat) : List (Nat × α) → Bool
  | [] => true
  | [_] => true
  | (t1, _) :: (t2, v2) :: rest =>
      decide (t2 - t1 ≤ w) && withinBurst w ((t2, v2) :: rest)

/-! ## Helper lemmas -/

/-- Every `Display` rendering of a variant value is non-empty (strings are
rendered with their surrounding quotes). -/
theorem display_isEmpty (v : DValue) : v.display.isEmpty = false := by
  cases v with
  | str s =>
      have h : ("\"" ++ s ++ "\"") ≠ "" := by
        intro h
        have hlen := congrArg String.length h
        simp [String.length_append] at hlen
        exact absurd hlen.2 (by decide)
      simp only [DValue.display, Bool.eq_false_iff, ne_eq, String.isEmpty_iff]
      exact h
  | dict entries => rfl
  | array elems => rfl
  | other => rfl

/-- The ownership-loss observer never touches `hosts`. -/
theorem processOwnerChanged_hosts (c : Bool) (st : WatcherState)
    (ev : NameOwnerChanged) :
    ((processOwnerChanged c st ev).1).hosts = st.hosts := by
  unfold processOwnerChanged
  split
  · split
    · split <;> rfl
    · rfl
  · rfl

/-- The `hosts` component never shrinks across a single registry operation. -/
theorem stepOp_hosts_subset (st : WatcherState) (op : Op) :
    st.hosts ⊆ (stepOp st op).hosts := by
  cases op with
  | regItem c s =>
      by_cases h : s ∈ st.items <;> cases c <;>
        simp [stepOp, RegisterStatusNotifierItem, h, List.Subset.refl]
  | regHost c s =>
      by_cases h : s ∈ st.hosts <;> cases c <;>
        simp [stepOp, RegisterStatusNotifierHost, h, List.Subset.refl,
          List.subset_cons_self]
  | ownerChanged c ev =>
      show st.hosts ⊆ ((processOwnerChanged c st ev).1).hosts
      rw [processOwnerChanged_hosts]
      exact List.Subset.refl _

/-- The `hosts` component never shrinks across any operation sequence. -/
theorem runOps_hosts_subset (st : WatcherState) (ops : List Op) :
    st.hosts ⊆ (runOps st ops).hosts := by
  induction ops generalizing st with
  | nil => exact List.Subset.refl _
  | cons op ops ih =>
      exact (stepOp_hosts_subset st op).trans (ih (stepOp st op))

/-- Inside one burst the debounce collapses everything onto the last value. -/
theorem debounce_burst {α : Type} (w : Nat) (l : List (Nat × α))
    (hb : withinBurst w l = true) (hne : l ≠ []) :
    debounce w l = [(l.getLast hne).2] := by
  induction l with
  | nil => exact absurd rfl hne
  | cons a l ih =>
      cases l with
      | nil =>
          obtain ⟨t, v⟩ := a
          rfl
      | cons b rest =>
          obtain ⟨t1, v1⟩ := a
          obtain ⟨t2, v2⟩ := b
          simp only [withinBurst, Bool.and_eq_true, decide_eq_true_eq] at hb
          have hne2 : (t2, v2) :: rest ≠ [] := List.cons_ne_nil _ _
          rw [debounce, if_neg (by omega), ih hb.2 hne2,
            List.getLast_cons hne2]

/-- Two updates separated by strictly more than the window both fire. -/
theorem debounce_gap {α : Type} (w t1 t2 : Nat) (v1 v2 : α)
    (h : w < t2 - t1) :
    debounce w [(t1, v1), (t2, v2)] = [v1, v2] := by
  rw [debounce, if_pos h]
  rfl

/-- Debounce emissions are a subsequence of the input values: relative
order is preserved. -/
theorem debounce_sublist {α : Type} (w : Nat) (l : List (Nat × α)) :
    List.Sublist (debounce w l) (List.map Prod.snd l) := by
  induction l with
  | nil => exact List.Sublist.refl _
  | cons a l ih =>
      cases l with
      | nil =>
          obtain ⟨t, v⟩ := a
          exact List.Sublist.refl _
      | cons b rest =>
          obtain ⟨t1, v1⟩ := a
          obtain ⟨t2, v2⟩ := b
          rw [debounce]
          split
          · exact List.Sublist.cons₂ _ ih
          · exact List.Sublist.cons _ ih

/-! ## Claim theorems -/

/-- C1 (counterexample): the claim says `StatusNotifierHostRegistered` is
emitted only on the first registration of *any* host, so once `hosts` is
non-empty no further call may emit it.  The code, however, emits the signal
whenever the registered identity is new: with `hosts = ["host.a"]` already
non-empty, registering the fresh identity `"host.b"` emits the signal
again. -/
theorem C1_host_signal_counterexample :
    IsStatusNotifierHostRegistered { items := [], hosts := ["host.a"] } = true ∧
    (RegisterStatusNotifierHost true { items := [], hosts := ["host.a"] }
        "host.b").signals = [Signal.hostRegistered] := by
  exact ⟨rfl, rfl⟩

/-- C1 (amended): `StatusNotifierHostRegistered` is emitted exactly when the
registered identity is new to the `hosts` set — also when `hosts` is already
non-empty; a call with an already-present identity emits nothing. -/
theorem C1_host_signal_iff_new (st : WatcherState) (s : String) :
    (RegisterStatusNotifierHost true st s).signals =
      if s ∈ st.hosts then [] else [Signal.hostRegistered] := by
  by_cases h : s ∈ st.hosts <;> simp [RegisterStatusNotifierHost, h]

/-- C2: registering the same item identity twice (with working signal
contexts) emits exactly one `StatusNotifierItemRegistered` — on the first
call — reports success both times, and leaves the identity in the queried
item list exactly once. -/
theorem C2_register_item_idempotent (st : WatcherState) (s : String)
    (h : s ∉ st.items) :
    (RegisterStatusNotifierItem true st s).signals =
      [Signal.itemRegistered s] ∧
    (RegisterStatusNotifierItem true st s).ok = true ∧
    (RegisterStatusNotifierItem true
        (RegisterStatusNotifierItem true st s).state s).signals = [] ∧
    (RegisterStatusNotifierItem true
        (RegisterStatusNotifierItem true st s).state s).ok = true ∧
    (RegisteredStatusNotifierItems
        (RegisterStatusNotifierItem true
          (RegisterStatusNotifierItem true st s).state s).state).count s
      = 1 := by
  have h0 : st.items.count s = 0 := List.count_eq_zero_of_not_mem h
  simp [RegisterStatusNotifierItem, RegisteredStatusNotifierItems, h, h0]

/-- Witness for C2 at a concrete registry state and identity. -/
theorem C2_register_item_idempotent_witness :
    (RegisterStatusNotifierItem true { items := ["i.b"], hosts := [] }
        "i.a").signals = [Signal.itemRegistered "i.a"] ∧
    (RegisterStatusNotifierItem true { items := ["i.b"], hosts := [] }
        "i.a").ok = true ∧
    (RegisterStatusNotifierItem true
        (RegisterStatusNotifierItem true { items := ["i.b"], hosts := [] }
          "i.a").state "i.a").signals = [] ∧
    (RegisterStatusNotifierItem true
        (RegisterStatusNotifierItem true { items := ["i.b"], hosts := [] }
          "i.a").state "i.a").ok = true ∧
    (RegisteredStatusNotifierItems
        (RegisterStatusNotifierItem true
          (RegisterStatusNotifierItem true { items := ["i.b"], hosts := [] }
            "i.a").state "i.a").state).count "i.a" = 1 :=
  C2_register_item_idempotent { items := ["i.b"], hosts := [] } "i.a"
    (by decide)

/-- C3: an ownership-loss notification (old owner present, no new owner) for
a registered item `X` removes `X` from `items` and emits exactly one
`StatusNotifierItemUnregistered(X)`; repeating the identical notification,
or sending one for a name `Y` that is not a registered item, removes nothing
and emits nothing. -/
theorem C3_ownership_loss_pruning (st : WatcherState) (X Y : String)
    (hX : X ∈ st.items) (hnd : st.items.Nodup) (hY : Y ∉ st.items) :
    processOwnerChanged true st ⟨X, true, false⟩ =
      ({ st with items := st.items.erase X },
        [Signal.itemUnregistered X], true) ∧
    X ∉ ({ st with items := st.items.erase X } : WatcherState).items ∧
    processOwnerChanged true { st with items := st.items.erase X }
        ⟨X, true, false⟩ =
      ({ st with items := st.items.erase X }, [], true) ∧
    processOwnerChanged true st ⟨Y, true, false⟩ = (st, [], true) := by
  have hgone : X ∉ st.items.erase X := hnd.not_mem_erase
  refine ⟨?_, hgone, ?_, ?_⟩
  · simp [processOwnerChanged, hX]
  · simp [processOwnerChanged, hgone]
  · simp [processOwnerChanged, hY]

/-- Witness for C3 at a concrete registry state. -/
theorem C3_ownership_loss_pruning_witness :
    processOwnerChanged true { items := ["x.a", "x.b"], hosts := [] }
        ⟨"x.a", true, false⟩ =
      ({ items := ["x.b"], hosts := [] },
        [Signal.itemUnregistered "x.a"], true) ∧
    "x.a" ∉ ({ items := ["x.b"], hosts := [] } : WatcherState).items ∧
    processOwnerChanged true { items := ["x.b"], hosts := [] }
        ⟨"x.a", true, false⟩ =
      ({ items := ["x.b"], hosts := [] }, [], true) ∧
    processOwnerChanged true { items := ["x.a", "x.b"], hosts := [] }
        ⟨"x.c", true, false⟩ =
      ({ items := ["x.a", "x.b"], hosts := [] }, [], true) :=
  C3_ownership_loss_pruning { items := ["x.a", "x.b"], hosts := [] }
    "x.a" "x.c" (by decide) (by decide) (by decide)

/-- C7: the presence detector activates the emulator iff, at the startup
check, neither `org.freedesktop.StatusNotifierWatcher` nor
`org.kde.StatusNotifierWatcher` has an owner on the bus (both
`name_has_owner` queries answering): if either reports an owner, no further
action is taken. -/
theorem C7_presence_detector (f k : Bool) :
    shouldActivateEmulator (some f) (some k) = (!f && !k) ∧
    (shouldActivateEmulator (some f) (some k) = true ↔
      f = false ∧ k = false) := by
  cases f <;> cases k <;> simp [shouldActivateEmulator]

/-- C8: no operation ever removes an element from `hosts` — in particular,
the ownership-loss observer leaves `hosts` unchanged — so once
`IsStatusNotifierHostRegistered` is `true` it stays `true` across any
further sequence of operations. -/
theorem C8_hosts_never_pruned (st : WatcherState) (ops : List Op)
    (c : Bool) (ev : NameOwnerChanged)
    (h : IsStatusNotifierHostRegistered st = true) :
    ((processOwnerChanged c st ev).1).hosts = st.hosts ∧
    st.hosts ⊆ (runOps st ops).hosts ∧
    IsStatusNotifierHostRegistered (runOps st ops) = true := by
  refine ⟨processOwnerChanged_hosts c st ev, runOps_hosts_subset st ops, ?_⟩
  have hne : st.hosts ≠ [] := by
    simpa [IsStatusNotifierHostRegistered, List.isEmpty_iff] using h
  obtain ⟨x, hx⟩ := List.exists_mem_of_ne_nil st.hosts hne
  have hx2 : x ∈ (runOps st ops).hosts := runOps_hosts_subset st ops hx
  simp only [IsStatusNotifierHostRegistered, Bool.not_eq_true',
    Bool.eq_false_iff, ne_eq, List.isEmpty_iff]
  exact List.ne_nil_of_mem hx2

/-- Witness for C8: one registered host survives an ownership-loss
notification aimed at it and an intervening item registration. -/
theorem C8_hosts_never_pruned_witness :
    ((processOwnerChanged true { items := [], hosts := ["h.a"] }
        ⟨"h.a", true, false⟩).1).hosts =
      ({ items := [], hosts := ["h.a"] } : WatcherState).hosts ∧
    ({ items := [], hosts := ["h.a"] } : WatcherState).hosts ⊆
      (runOps { items := [], hosts := ["h.a"] }
        [Op.ownerChanged true ⟨"h.a", true, false⟩,
          Op.regItem true "i.a"]).hosts ∧
    IsStatusNotifierHostRegistered
      (runOps { items := [], hosts := ["h.a"] }
        [Op.ownerChanged true ⟨"h.a", true, false⟩,
          Op.regItem true "i.a"]) = true :=
  C8_hosts_never_pruned { items := [], hosts := ["h.a"] }
    [Op.ownerChanged true ⟨"h.a", true, false⟩, Op.regItem true "i.a"]
    true ⟨"h.a", true, false⟩ (by decide)

/-- C10: when signal-context creation fails during registration of a fresh
item identity, the call reports an error, yet the identity was already
inserted into `items` (the insertion is not rolled back) and no
`StatusNotifierItemRegistered` signal is emitted; a failed context creation
on a fresh identity is the only way the call reports anything but success —
with a working context, or with an already-present identity, the call
succeeds. -/
theorem C10_register_item_error_path (st st2 : WatcherState)
    (s s2 : String) (c : Bool)
    (h : s ∉ st.items) (h2 : s2 ∈ st2.items) :
    (RegisterStatusNotifierItem false st s).ok = false ∧
    s ∈ (RegisterStatusNotifierItem false st s).state.items ∧
    (RegisterStatusNotifierItem false st s).signals = [] ∧
    ((RegisterStatusNotifierItem c st s).ok = false ↔ c = false) ∧
    (RegisterStatusNotifierItem c st2 s2).ok = true := by
  refine ⟨?_, ?_, ?_, ?_, ?_⟩
  · simp [RegisterStatusNotifierItem, h]
  · simp [RegisterStatusNotifierItem, h]
  · simp [RegisterStatusNotifierItem, h]
  · cases c <;> simp [RegisterStatusNotifierItem, h]
  · cases c <;> simp [RegisterStatusNotifierItem, h2]

/-- Witness for C10 at concrete registry states. -/
theorem C10_register_item_error_path_witness :
    (RegisterStatusNotifierItem false { items := [], hosts := [] }
        "i.a").ok = false ∧
    "i.a" ∈ (RegisterStatusNotifierItem false { items := [], hosts := [] }
        "i.a").state.items ∧
    (RegisterStatusNotifierItem false { items := [], hosts := [] }
        "i.a").signals = [] ∧
    ((RegisterStatusNotifierItem false { items := [], hosts := [] }
        "i.a").ok = false ↔ (false : Bool) = false) ∧
    (RegisterStatusNotifierItem false { items := ["i.b"], hosts := [] }
        "i.b").ok = true :=
  C10_register_item_error_path { items := [], hosts := [] }
    { items := ["i.b"], hosts := [] } "i.a" "i.b" false
    (by decide) (by decide)

/-- C4: an accepted `PropertiesChanged` message whose property map contains
a `PlaybackStatus` entry updates only the snapshot's status field (to the
rendered value with double quotes stripped) and pushes a clone downstream
when the channel has room; `title`, `album` and `artist` keep their previous
values and the metadata branch is never entered — also when a `Metadata`
entry is present in the same map. -/
theorem C4_status_branch (full : Bool) (st : MediaStruct)
    (iface : String) (props : List (String × DValue)) (inv : List String)
    (v : DValue)
    (hif : strStartsWith iface "org.mpris.MediaPlayer2.Player" = true)
    (hps : props.lookup "PlaybackStatus" = some v) :
    processMessage full st
        ⟨some "PropertiesChanged", some (iface, props, inv)⟩ =
      ({ st with status := stripQuotes v.display },
        if full then []
        else [{ st with status := stripQuotes v.display }]) := by
  simp [processMessage, hif, hps, display_isEmpty]

/-- Witness for C4: a status message also carrying a `Metadata` entry
updates the status to the unquoted string and leaves title, album and
artists untouched. -/
theorem C4_status_branch_witness :
    processMessage false ⟨"T", ["A"], "Al", "S"⟩
        ⟨some "PropertiesChanged",
          some ("org.mpris.MediaPlayer2.Player",
            [("PlaybackStatus", DValue.str "Playing"),
              ("Metadata", DValue.dict [("xesam:title", DValue.str "X")])],
            [])⟩ =
      (⟨"T", ["A"], "Al", "Playing"⟩, [⟨"T", ["A"], "Al", "Playing"⟩]) := by
  have h := C4_status_branch false ⟨"T", ["A"], "Al", "S"⟩
    "org.mpris.MediaPlayer2.Player"
    [("PlaybackStatus", DValue.str "Playing"),
      ("Metadata", DValue.dict [("xesam:title", DValue.str "X")])]
    [] (DValue.str "Playing") (by decide) rfl
  exact h

/-- C5: an accepted message with no `PlaybackStatus` entry and a `Metadata`
entry shaped as a keyed dictionary sets `title` and `album` to the extracted
strings (empty when the key is absent or not a string), sets `artist` to the
string elements of the extracted array (wrong-shaped elements skipped,
empty when the key is absent or not an array), leaves `status` unchanged,
and pushes a clone downstream when the channel has room. -/
theorem C5_metadata_branch (full : Bool) (st : MediaStruct)
    (iface : String) (props : List (String × DValue)) (inv : List String)
    (d : List (String × DValue))
    (hif : strStartsWith iface "org.mpris.MediaPlayer2.Player" = true)
    (hps : props.lookup "PlaybackStatus" = none)
    (hmd : props.lookup "Metadata" = some (DValue.dict d)) :
    processMessage full st
        ⟨some "PropertiesChanged", some (iface, props, inv)⟩ =
      ({ st with title := extractTitle d, album := extractAlbum d,
                 artist := extractArtists d },
        if full then []
        else [{ st with title := extractTitle d, album := extractAlbum d,
                        artist := extractArtists d }]) := by
  simp [processMessage, hif, hps, hmd,
    show ("" : String).isEmpty = true from rfl]

/-- Witness for C5: an absent album key defaults to `""`, a wrong-shaped
artist element is skipped while the rest of the list survives, and the
previous status is kept. -/
theorem C5_metadata_branch_witness :
    processMessage false ⟨"T", ["A"], "Al", "S"⟩
        ⟨some "PropertiesChanged",
          some ("org.mpris.MediaPlayer2.Player",
            [("Metadata", DValue.dict
              [("xesam:title", DValue.str "Song"),
                ("xesam:artist", DValue.array
                  [DValue.str "Artist A", DValue.other,
                    DValue.str "Artist B"])])],
            [])⟩ =
      (⟨"Song", ["Artist A", "Artist B"], "", "S"⟩,
        [⟨"Song", ["Artist A", "Artist B"], "", "S"⟩]) := by
  have h := C5_metadata_branch false ⟨"T", ["A"], "Al", "S"⟩
    "org.mpris.MediaPlayer2.Player"
    [("Metadata", DValue.dict
      [("xesam:title", DValue.str "Song"),
        ("xesam:artist", DValue.array
          [DValue.str "Artist A", DValue.other, DValue.str "Artist B"])])]
    []
    [("xesam:title", DValue.str "Song"),
      ("xesam:artist", DValue.array
        [DValue.str "Artist A", DValue.other, DValue.str "Artist B"])]
    (by decide) rfl rfl
  exact h

/-- C9: when the bounded debounce channel is full, the `try_send` is
dropped: nothing is pushed, no error surfaces (the iteration still returns),
and the snapshot after the iteration is exactly the one a non-full channel
would have produced — processing continues with the next message. -/
theorem C9_backpressure_drop (st : MediaStruct) (msg : BusMessage) :
    (processMessage true st msg).1 = (processMessage false st msg).1 ∧
    (processMessage true st msg).2 = [] := by
  obtain ⟨mem, body⟩ := msg
  by_cases hm : mem.getD "" = "PropertiesChanged"
  · cases body with
    | none => simp [processMessage, hm]
    | some b =>
        obtain ⟨iface, props, inv⟩ := b
        by_cases hif :
            strStartsWith iface "org.mpris.MediaPlayer2.Player" = true
        · cases hps : props.lookup "PlaybackStatus" with
          | some v => simp [processMessage, hm, hif, hps, display_isEmpty]
          | none =>
              cases hmd : props.lookup "Metadata" with
              | none =>
                  simp [processMessage, hm, hif, hps, hmd,
                    show ("" : String).isEmpty = true from rfl]
              | some mv =>
                  cases mv <;>
                    simp [processMessage, hm, hif, hps, hmd,
                      show ("" : String).isEmpty = true from rfl]
        · simp [processMessage, hm, hif]
  · simp [processMessage, hm]

/-- C6: for the debounce stage (modelled from the spec, the `debounced`
crate being external): a burst of updates each arriving within the
quiet-period window of its predecessor yields exactly one emission carrying
the last value; two updates separated by strictly more than the window yield
two emissions in order; the empty stream yields no emission; and for any
input stream the emissions are a subsequence of the input values, so
emission order matches the order of the snapshots that triggered them. -/
theorem C6_debounce_semantics (w : Nat)
    (l l2 : List (Nat × MediaStruct))
    (t1 t2 : Nat) (u1 u2 : MediaStruct)
    (hb : withinBurst w l = true) (hne : l ≠ []) (hgap : w < t2 - t1) :
    debounce w l = [(l.getLast hne).2] ∧
    debounce w [(t1, u1), (t2, u2)] = [u1, u2] ∧
    debounce w ([] : List (Nat × MediaStruct)) = [] ∧
    List.Sublist (debounce w l2) (List.map Prod.snd l2) :=
  ⟨debounce_burst w l hb hne, debounce_gap w t1 t2 u1 u2 hgap, rfl,
    debounce_sublist w l2⟩

/-- Witness for C6: a three-update burst inside the 100 ms window collapses
to its last snapshot, and two updates 201 ms apart both fire, in order. -/
theorem C6_debounce_semantics_witness :
    debounce 100 [(0, (⟨"a", [], "", ""⟩ : MediaStruct)),
        (50, ⟨"b", [], "", ""⟩), (120, ⟨"c", [], "", ""⟩)] =
      [⟨"c", [], "", ""⟩] ∧
    debounce 100 [(0, (⟨"p", [], "", ""⟩ : MediaStruct)),
        (201, ⟨"q", [], "", ""⟩)] =
      [⟨"p", [], "", ""⟩, ⟨"q", [], "", ""⟩] ∧
    debounce 100 ([] : List (Nat × MediaStruct)) = [] ∧
    List.Sublist
      (debounce 100 [(0, (⟨"a", [], "", ""⟩ : MediaStruct)),
        (50, ⟨"b", [], "", ""⟩), (120, ⟨"c", [], "", ""⟩)])
      (List.map Prod.snd [(0, (⟨"a", [], "", ""⟩ : MediaStruct)),
        (50, ⟨"b", [], "", ""⟩), (120, ⟨"c", [], "", ""⟩)]) := by
  have h := C6_debounce_semantics 100
    [(0, ⟨"a", [], "", ""⟩), (50, ⟨"b", [], "", ""⟩),
      (120, ⟨"c", [], "", ""⟩)]
    [(0, ⟨"a", [], "", ""⟩), (50, ⟨"b", [], "", ""⟩),
      (120, ⟨"c", [], "", ""⟩)]
    0 201 ⟨"p", [], "", ""⟩ ⟨"q", [], "", ""⟩
    (by decide) (by decide) (by decide)
  exact h
